import Mathlib

/-!
Verification of the remote-generation orchestration saga of the mdx_editor
repository. The definitions below are a shallow embedding of the TypeScript
source. The main saga lives in src/unnamed/part_001 (functions generateImage,
extractImagesOnce, extractImagesWithPolling, replaceImageFromUrl,
deleteConversation, processImage); the replacement applier is the API handler
in src/app/src/pages/api/images/replace-from-url.ts.

External effects (HTTP calls, the clock, the file system) are modelled by
explicit oracle values describing what the outside world answers; each source
function becomes a pure Lean function of those oracles, and side effects
(delete calls, file writes) are returned as explicit logs.
-/

namespace MdxEditor

/-- Poll interval of the saga: 60 * 1000 ms (src/unnamed/part_001 line 10). -/
def POLL_INTERVAL_MS : Nat := 60 * 1000

/-- Maximum polling time: 5 * 60 * 1000 ms (src/unnamed/part_001 line 11). -/
def MAX_POLL_TIME_MS : Nat := 5 * 60 * 1000

/-- JavaScript truthiness of an optional string value: undefined and null map
to none, and the empty string is falsy as well. Used wherever the source
tests a string field directly in a condition. -/
def jsTruthy : Option String → Bool
  | none => false
  | some s => s != ""

/-- One artifact returned by the remote generation service
(interface ApiImageResponse, src/unnamed/part_001 lines 13-23; the purely
diagnostic metadata fields, such as dimensions and size_bytes, are elided
because no control flow of the saga reads them). -/
structure ApiImageResponse where
  alt_text : Option String
  download_url : Option String
  status : Option String
  deriving DecidableEq, Repr

/-- An artifact is ready when its download_url is present and non-empty;
this is the truthiness test img.download_url && img.download_url !== null
at src/unnamed/part_001 lines 196-197. -/
def isReady (img : ApiImageResponse) : Bool :=
  jsTruthy img.download_url

/-- Parsed JSON body answered by the send-message endpoint, as read by
generateImage (fields data.success and data.conversation_id,
src/unnamed/part_001 line 154). -/
structure GenData where
  success : Bool
  conversation_id : Option String
  deriving DecidableEq, Repr

/-- Oracle describing what the network does for the single fetch performed by
generateImage: either the fetch (or the JSON parse) throws, or a response
arrives with the given ok flag, status, statusText and parsed body. -/
inductive GenResponse where
  | exception (msg : String)
  | response (ok : Bool) (status : Nat) (statusText : String) (data : GenData)
  deriving DecidableEq, Repr

/-- Result record of generateImage
({ success, conversationId?, error? }, src/unnamed/part_001 line 133). -/
structure GenResult where
  success : Bool
  conversationId : Option String
  error : Option String
  deriving DecidableEq, Repr

/-- Step 1 of the saga: generateImage (src/unnamed/part_001 lines 133-164).
Submits the prompt; on a non-ok response or a malformed body it returns a
failure record, and the catch block turns any thrown exception into a
failure record with a Network error message. -/
def generateImage : GenResponse → GenResult
  | .exception msg =>
      { success := false, conversationId := none,
        error := some ("Network error: " ++ msg) }
  | .response ok status statusText data =>
      if !ok then
        { success := false, conversationId := none,
          error := some ("AI service error: " ++ toString status ++ " " ++ statusText) }
      else if data.success && jsTruthy data.conversation_id then
        { success := true, conversationId := data.conversation_id, error := none }
      else
        { success := false, conversationId := none,
          error := some "Invalid response from AI service" }

/-- Parsed JSON body answered by the conversation images endpoint, as read by
extractImagesOnce (fields data.success and data.images,
src/unnamed/part_001 line 194). -/
structure ExtractData where
  success : Bool
  images : Option (List ApiImageResponse)
  deriving DecidableEq, Repr

/-- Oracle for the single fetch performed by one extraction attempt. The
errorText field is the text body read on a non-ok response (with its own
catch fallback already applied, src/unnamed/part_001 line 186). -/
inductive ExtractResponse where
  | exception (msg : String)
  | response (ok : Bool) (status : Nat) (statusText : String)
      (errorText : String) (data : ExtractData)
  deriving DecidableEq, Repr

/-- Result record of extractImagesOnce
({ success, images?, error?, pending? }, src/unnamed/part_001 line 167).
The optional pending flag of the source is modelled as a Bool, with absence
mapped to false, exactly matching its truthiness test in the polling loop. -/
structure ExtractResult where
  success : Bool
  images : Option (List ApiImageResponse)
  error : Option String
  pending : Bool
  deriving DecidableEq, Repr

/-- Step 2 of the saga, one attempt: extractImagesOnce
(src/unnamed/part_001 lines 167-230). A non-ok response is a non-recoverable
error; a body with images that all lack a download URL, or with no images at
all, is reported as recoverable (pending := true); when at least one image is
ready, the READY images only are returned, in input order. The catch block
turns any thrown exception into a failure record. -/
def extractImagesOnce : ExtractResponse → ExtractResult
  | .exception msg =>
      { success := false, images := none,
        error := some ("Network error: " ++ msg), pending := false }
  | .response ok status statusText errorText data =>
      if !ok then
        { success := false, images := none,
          error := some ("Extract API error: " ++ toString status ++ " " ++ statusText
            ++ (if errorText != "" then " - " ++ errorText else "")),
          pending := false }
      else
        match data.images with
        | some imgs =>
            if data.success && !imgs.isEmpty then
              if !(imgs.filter isReady).isEmpty then
                { success := true, images := some (imgs.filter isReady),
                  error := none, pending := false }
              else
                { success := false, images := none,
                  error := some (toString imgs.length
                    ++ " images found but still processing (no download URLs yet)"),
                  pending := true }
            else
              { success := false, images := none,
                error := some "Images still being generated", pending := true }
        | none =>
            { success := false, images := none,
              error := some "Images still being generated", pending := true }

/-- Environment of one polling run: the network answer to the n-th extraction
attempt (0-based) and the wall-clock duration in ms of that attempt (time
spent inside the fetch of extractImagesOnce). -/
structure PollEnv where
  check : Nat → ExtractResponse
  dur : Nat → Nat

/-- Result record of extractImagesWithPolling
({ success, images?, error? }, src/unnamed/part_001 line 233). -/
structure ExtractPollResult where
  success : Bool
  images : Option (List ApiImageResponse)
  error : Option String
  deriving DecidableEq, Repr

/-- Timing and effect trace of one polling run: number of attempts performed,
the time (ms after startTime) at which the loop returned, the number of times
it slept for a full interval, and for each attempt its index paired with the
time at which the attempt started. -/
structure PollTrace where
  attempts : Nat
  finishTime : Nat
  sleeps : Nat
  checkLog : List (Nat × Nat)
  deriving DecidableEq, Repr

/-- Math.round(n / 1000) of JavaScript for an integer number n of
milliseconds: rounding half toward positive infinity, that is
floor((n + 500) / 1000). Used for the remainingTime computation at
src/unnamed/part_001 line 254. -/
def jsRoundDiv1000 (n : Int) : Int :=
  Int.fdiv (n + 500) 1000

/-- Timeout message of the in-loop deadline return
(src/unnamed/part_001 line 257). -/
def pollTimeoutMsg : String :=
  "Timeout: Images not ready after " ++ toString (MAX_POLL_TIME_MS / 1000) ++ " seconds"

/-- Timeout message of the loop-exit deadline return
(src/unnamed/part_001 line 269). -/
def pollTimeoutAttemptsMsg (attemptCount : Nat) : String :=
  pollTimeoutMsg ++ " and " ++ toString attemptCount ++ " attempts"

/-- The while loop of extractImagesWithPolling
(src/unnamed/part_001 lines 240-269), one constructor application per source
construct: elapsed is Date.now() - startTime at the top of the iteration,
attempts is attemptCount, and each recursive call models one sleep of
POLL_INTERVAL_MS. The loop runs only while elapsed < MAX_POLL_TIME_MS and
every iteration that continues advances elapsed by at least POLL_INTERVAL_MS,
so at most five iterations can recurse; the fuel argument is therefore never
exhausted from the entry point below (fuel 6), and the fuel-zero branch is
given the same value as the loop-exit branch, which keeps the function total
and structurally recursive without changing its value (see
pollGo_fuel_stable). -/
def pollGo (env : PollEnv) :
    Nat → Nat → Nat → Nat → List (Nat × Nat) → ExtractPollResult × PollTrace
  | 0, elapsed, attempts, sleeps, log =>
      ({ success := false, images := none,
         error := some (pollTimeoutAttemptsMsg attempts) },
       { attempts := attempts, finishTime := elapsed, sleeps := sleeps, checkLog := log })
  | fuel + 1, elapsed, attempts, sleeps, log =>
      if elapsed < MAX_POLL_TIME_MS then
        if (extractImagesOnce (env.check attempts)).success then
          ({ success := true,
             images := (extractImagesOnce (env.check attempts)).images,
             error := none },
           { attempts := attempts + 1,
             finishTime := elapsed + env.dur attempts,
             sleeps := sleeps, checkLog := log ++ [(attempts, elapsed)] })
        else if (extractImagesOnce (env.check attempts)).pending then
          if jsRoundDiv1000 ((MAX_POLL_TIME_MS : Int) - (elapsed + env.dur attempts : Nat)) ≤ 0 then
            ({ success := false, images := none, error := some pollTimeoutMsg },
             { attempts := attempts + 1,
               finishTime := elapsed + env.dur attempts,
               sleeps := sleeps, checkLog := log ++ [(attempts, elapsed)] })
          else
            pollGo env fuel (elapsed + env.dur attempts + POLL_INTERVAL_MS)
              (attempts + 1) (sleeps + 1) (log ++ [(attempts, elapsed)])
        else
          ({ success := false, images := none,
             error := (extractImagesOnce (env.check attempts)).error },
           { attempts := attempts + 1,
             finishTime := elapsed + env.dur attempts,
             sleeps := sleeps, checkLog := log ++ [(attempts, elapsed)] })
      else
        ({ success := false, images := none,
           error := some (pollTimeoutAttemptsMsg attempts) },
         { attempts := attempts, finishTime := elapsed, sleeps := sleeps, checkLog := log })

/-- Step 2 of the saga: extractImagesWithPolling
(src/unnamed/part_001 lines 233-270), entered with elapsed = 0,
attemptCount = 0 and no sleeps performed. -/
def extractImagesWithPolling (env : PollEnv) : ExtractPollResult × PollTrace :=
  pollGo env 6 0 0 0 []

/-- A response whose parsed body reports no success and no images: one source
of the recoverable still-being-generated answer. -/
def pendingResponse : ExtractResponse :=
  .response true 200 "OK" "" { success := false, images := none }

/-- A response whose parsed body is a successful snapshot containing zero
artifacts in total (images present but empty). -/
def emptySnapshotResponse : ExtractResponse :=
  .response true 200 "OK" "" { success := true, images := some [] }

/-- Polling environment in which every attempt answers pending and every
check takes 10 ms. -/
def envPendingTen : PollEnv :=
  { check := fun _ => pendingResponse, dur := fun _ => 10 }

/-- Polling environment in which every attempt answers pending and checks
are instantaneous. -/
def envPendingZero : PollEnv :=
  { check := fun _ => pendingResponse, dur := fun _ => 0 }

/-- Polling environment in which every attempt answers a zero-artifact
snapshot and checks are instantaneous. -/
def envEmptyZero : PollEnv :=
  { check := fun _ => emptySnapshotResponse, dur := fun _ => 0 }

/-- Polling environment in which every attempt answers pending and the check
itself takes 299700 ms, leaving 300 ms of budget after the first attempt. -/
def envPendingLate : PollEnv :=
  { check := fun _ => pendingResponse, dur := fun _ => 299700 }

/-- Polling environment in which every attempt throws a network exception,
with instantaneous checks. -/
def envErrorZero : PollEnv :=
  { check := fun _ => .exception "boom", dur := fun _ => 0 }

/-- Parsed JSON body answered by the internal replace-from-url API on a
successful HTTP status, as read by replaceImageFromUrl
(fields result.success, result.newImagePath and result.error,
src/unnamed/part_001 lines 304-310). -/
structure ReplaceApiResult where
  success : Bool
  newImagePath : Option String
  error : Option String
  deriving DecidableEq, Repr

/-- Oracle for the single fetch performed by replaceImageFromUrl. exception
covers both a throwing fetch and a throwing JSON parse of an ok response
(both land in the same catch block); httpError is a non-ok response whose
body was parsed with a catch fallback, carrying some (error field) when the
JSON parse succeeded and none when it failed (in which case the source
substitutes the object with error field Unknown error). -/
inductive ReplaceResponse where
  | exception (msg : String)
  | httpError (status : Nat) (statusText : String) (errJson : Option (Option String))
  | httpOk (result : ReplaceApiResult)
  deriving DecidableEq, Repr

/-- Result record of replaceImageFromUrl
({ success, newImagePath?, error? }, src/unnamed/part_001 line 278). -/
structure ReplaceResult where
  success : Bool
  newImagePath : Option String
  error : Option String
  deriving DecidableEq, Repr

/-- Step 3 of the saga: replaceImageFromUrl
(src/unnamed/part_001 lines 273-317). On a non-ok response it surfaces the
error field of the body when that field is truthy, otherwise a generic API
error string; on an ok response it trusts the success flag of the body; the
catch block wraps any thrown exception. -/
def replaceImageFromUrl : ReplaceResponse → ReplaceResult
  | .exception msg =>
      { success := false, newImagePath := none,
        error := some ("Failed to replace image: " ++ msg) }
  | .httpError status statusText errJson =>
      { success := false, newImagePath := none,
        error := some
          (match errJson with
           | none => "Unknown error"
           | some e =>
               if jsTruthy e then e.getD ""
               else "API error: " ++ toString status ++ " " ++ statusText) }
  | .httpOk result =>
      if result.success then
        { success := true, newImagePath := result.newImagePath, error := none }
      else
        { success := false, newImagePath := none,
          error := some
            (if jsTruthy result.error then result.error.getD ""
             else "Unexpected response format") }

/-- Oracle for the single fetch performed by deleteConversation. -/
inductive DeleteResponse where
  | exception (msg : String)
  | response (ok : Bool) (status : Nat) (statusText : String)
  deriving DecidableEq, Repr

/-- Result record of deleteConversation
({ success, error? }, src/unnamed/part_001 line 320). -/
structure DeleteResult where
  success : Bool
  error : Option String
  deriving DecidableEq, Repr

/-- Step 4 of the saga: deleteConversation
(src/unnamed/part_001 lines 320-342), the compensation call. -/
def deleteConversation : DeleteResponse → DeleteResult
  | .exception msg =>
      { success := false, error := some ("Network error: " ++ msg) }
  | .response ok status statusText =>
      if !ok then
        { success := false,
          error := some ("Failed to delete conversation: " ++ toString status
            ++ " " ++ statusText) }
      else
        { success := true, error := none }

/-- Environment of one whole saga run: the oracle of each external call it
can perform. The prompt construction of lines 368-371 only builds the string
sent to the generation service and affects no control flow, so it is folded
into the gen oracle. -/
structure SagaEnv where
  gen : GenResponse
  poll : PollEnv
  replace : ReplaceResponse
  del : DeleteResponse

/-- Result record of processImage
({ success, conversationId?, replacedImagePath?, error? },
src/unnamed/part_001 line 353; the same shape is surfaced to HTTP clients as
the result field of GenerateAndReplaceResponse, lines 44-50). -/
structure ProcessResult where
  success : Bool
  conversationId : Option String
  replacedImagePath : Option String
  error : Option String
  deriving DecidableEq, Repr

/-- Observable outcome of one saga run: the returned record together with the
log of conversation ids passed to deleteConversation and the log of download
URLs passed to replaceImageFromUrl, each in call order. -/
structure SagaRun where
  result : ProcessResult
  deleteCalls : List String
  replaceCalls : List String
  deriving DecidableEq, Repr

/-- The saga orchestrator: processImage (src/unnamed/part_001 lines 345-442).
Step order and every return statement mirror the source: submit failure
returns without any cleanup; every later outcome, including success, performs
exactly one deleteConversation call; the result of the final cleanup call on
the success path is only logged as a console warning and never alters the
returned record. The conversationId read at line 380 uses the TypeScript
non-null assertion, modelled by getD with an unused default. The outer catch
of lines 438-441 is unreachable in this model because every step function is
total and catches internally. -/
def processImage (env : SagaEnv) : SagaRun :=
  let generateResult := generateImage env.gen
  if !generateResult.success then
    { result := { success := false, conversationId := none,
                  replacedImagePath := none, error := generateResult.error },
      deleteCalls := [], replaceCalls := [] }
  else
    let conversationId := generateResult.conversationId.getD ""
    let extractResult := (extractImagesWithPolling env.poll).1
    if !extractResult.success then
      { result := { success := false, conversationId := some conversationId,
                    replacedImagePath := none, error := extractResult.error },
        deleteCalls := [conversationId], replaceCalls := [] }
    else
      match extractResult.images.getD [] with
      | [] =>
          { result := { success := false, conversationId := some conversationId,
                        replacedImagePath := none,
                        error := some "No images found in extracted results" },
            deleteCalls := [conversationId], replaceCalls := [] }
      | img0 :: _ =>
          if !(jsTruthy img0.download_url) then
            { result := { success := false, conversationId := some conversationId,
                          replacedImagePath := none,
                          error := some "No download URL found in extracted image" },
              deleteCalls := [conversationId], replaceCalls := [] }
          else
            let replaceResult := replaceImageFromUrl env.replace
            if !replaceResult.success then
              { result := { success := false, conversationId := some conversationId,
                            replacedImagePath := none, error := replaceResult.error },
                deleteCalls := [conversationId],
                replaceCalls := [img0.download_url.getD ""] }
            else
              { result := { success := true, conversationId := some conversationId,
                            replacedImagePath := replaceResult.newImagePath,
                            error := none },
                deleteCalls := [conversationId],
                replaceCalls := [img0.download_url.getD ""] }

/-- The download URL the saga would apply: the one of the first image in the
list returned by a successful extraction. -/
def firstUrl (env : SagaEnv) : Option String :=
  match ((extractImagesWithPolling env.poll).1.images.getD []) with
  | [] => none
  | img0 :: _ => img0.download_url

/-- The two URL components read by the applier after new URL(imageUrl):
url.protocol (with trailing colon) and url.hostname. -/
structure ParsedUrl where
  protocol : String
  hostname : String
  deriving DecidableEq, Repr

/-- Oracle for the image fetch performed by the applier: either the fetch
throws, or a response arrives with the given ok flag, status, statusText,
content-type header, parsed numeric content-length header and actual body
size in bytes. A content-length of none covers both an absent header and a
header whose parseInt is NaN, since NaN compares false against the limit
exactly as an absent header does. -/
inductive FetchOutcome where
  | exception (msg : String)
  | response (ok : Bool) (status : Nat) (statusText : String)
      (contentType : Option String) (contentLength : Option Nat) (bodySize : Nat)
  deriving DecidableEq, Repr

/-- Environment of one invocation of the replace-from-url API handler: the
request method and body fields, the outcome of URL parsing (none models a
throwing new URL), the CHATGPT_AUTH_TOKEN environment variable, the network
oracle and whether the repository directory exists. The dotenv loading of
lines 17-28 only populates process.env and is folded into chatgptToken. -/
structure ReplaceHandlerEnv where
  method : String
  imageUrl : Option String
  repoName : Option String
  slug : Option String
  oldImagePath : Option String
  urlParse : Option ParsedUrl
  chatgptToken : Option String
  fetch : FetchOutcome
  repoExists : Bool
  deriving DecidableEq, Repr

/-- Observable outcome of one handler invocation: HTTP status, the success
flag and error of the JSON response, the returned MDX image path, whether the
response body was read into memory (response.arrayBuffer at line 94), and
the log of file writes performed (target path inside the repository paired
with the number of bytes written). -/
structure HandlerOutcome where
  status : Nat
  success : Bool
  error : Option String
  newImagePath : Option String
  bodyRead : Bool
  writes : List (String × Nat)
  deriving DecidableEq, Repr

/-- Prefix test on strings by their character lists (the startsWith test of
the source on the content-type header). -/
def strStartsWith (s pre : String) : Bool :=
  pre.data.isPrefixOf s.data

/-- Suffix test on strings by their character lists (the endsWith test of
the source on the URL hostname). -/
def strEndsWith (s suf : String) : Bool :=
  suf.data.isSuffixOf s.data

/-- Final path component, as path.basename is used at line 111 on the old
image path (its inputs here are slash-separated POSIX paths): the characters
after the last slash. -/
def jsBasename (p : String) : String :=
  String.mk (p.data.foldl (fun acc c => if c = '/' then [] else acc ++ [c]) [])

/-- The applier: the API handler of
src/app/src/pages/api/images/replace-from-url.ts (lines 6-145). Checks run
in source order: method, required body fields, URL parse, protocol
allow-list, auth token for chatgpt.com hosts, fetch outcome, content-type
header, content-length ceiling of 10 * 1024 * 1024 bytes; only then is the
body read, the repository checked, and the file written under
uploads/slug/basename(oldImagePath) (the constant repository prefix of
path.join(repoPath, ...) is elided from the logged path). A throwing fetch
reaches the catch block and returns status 500, and a throwing new URL
returns the dedicated 400 Invalid URL format answer of the catch block. -/
def replaceFromUrlHandler (env : ReplaceHandlerEnv) : HandlerOutcome :=
  if env.method != "POST" then
    { status := 405, success := false, error := some "Method not allowed",
      newImagePath := none, bodyRead := false, writes := [] }
  else if !(jsTruthy env.imageUrl && jsTruthy env.repoName && jsTruthy env.slug
      && jsTruthy env.oldImagePath) then
    { status := 400, success := false,
      error := some "Missing required fields: imageUrl, repoName, slug, oldImagePath",
      newImagePath := none, bodyRead := false, writes := [] }
  else
    match env.urlParse with
    | none =>
        { status := 400, success := false, error := some "Invalid URL format",
          newImagePath := none, bodyRead := false, writes := [] }
    | some url =>
        if !(url.protocol == "http:" || url.protocol == "https:") then
          { status := 400, success := false,
            error := some "Only HTTP and HTTPS URLs are allowed",
            newImagePath := none, bodyRead := false, writes := [] }
        else if (url.hostname == "chatgpt.com" || strEndsWith url.hostname ".chatgpt.com")
            && !(jsTruthy env.chatgptToken) then
          { status := 400, success := false,
            error := some "CHATGPT_AUTH_TOKEN environment variable is required for chatgpt.com URLs",
            newImagePath := none, bodyRead := false, writes := [] }
        else
          match env.fetch with
          | .exception msg =>
              { status := 500, success := false,
                error := some ("Failed to replace image from URL: " ++ msg),
                newImagePath := none, bodyRead := false, writes := [] }
          | .response ok status statusText contentType contentLength bodySize =>
              if !ok then
                { status := status, success := false,
                  error := some ("Failed to fetch image: " ++ toString status
                    ++ " " ++ statusText),
                  newImagePath := none, bodyRead := false, writes := [] }
              else if !(match contentType with
                        | some ct => strStartsWith ct "image/"
                        | none => false) then
                { status := 400, success := false,
                  error := some "URL does not point to a valid image file",
                  newImagePath := none, bodyRead := false, writes := [] }
              else if (match contentLength with
                       | some n => decide (10 * 1024 * 1024 < n)
                       | none => false) then
                { status := 400, success := false,
                  error := some "Image file is too large (maximum 10MB allowed)",
                  newImagePath := none, bodyRead := false, writes := [] }
              else if !env.repoExists then
                { status := 404, success := false, error := some "Repository not found",
                  newImagePath := none, bodyRead := true, writes := [] }
              else
                { status := 200, success := true, error := none,
                  newImagePath := some ("/images/uploads/" ++ env.slug.getD "" ++ "/"
                    ++ jsBasename (env.oldImagePath.getD "")),
                  bodyRead := true,
                  writes := [("uploads/" ++ env.slug.getD "" ++ "/"
                    ++ jsBasename (env.oldImagePath.getD ""), bodySize)] }

/-- All guard conditions of the applier that precede the content-length
check, in source order (method, body fields, URL parse, protocol, auth
token, fetch ok, content-type). -/
def preSizeChecksPassed (env : ReplaceHandlerEnv) : Bool :=
  env.method == "POST"
  && jsTruthy env.imageUrl && jsTruthy env.repoName && jsTruthy env.slug
  && jsTruthy env.oldImagePath
  && (match env.urlParse with
      | none => false
      | some url =>
          (url.protocol == "http:" || url.protocol == "https:")
          && (!((url.hostname == "chatgpt.com" || strEndsWith url.hostname ".chatgpt.com")
                && !(jsTruthy env.chatgptToken))))
  && (match env.fetch with
      | .exception _ => false
      | .response ok _ _ contentType _ _ =>
          ok && (match contentType with
                 | some ct => strStartsWith ct "image/"
                 | none => false))

/-- All guard conditions of the applier, including the content-length ceiling
and the repository existence check: exactly the conditions under which the
handler reaches the file write. -/
def handlerChecksPassed (env : ReplaceHandlerEnv) : Bool :=
  preSizeChecksPassed env
  && (match env.fetch with
      | .exception _ => false
      | .response _ _ _ _ contentLength _ =>
          match contentLength with
          | some n => decide (n ≤ 10 * 1024 * 1024)
          | none => true)
  && env.repoExists

/-- The parsed content-length header of the fetch answered to the applier. -/
def contentLengthOf (env : ReplaceHandlerEnv) : Option Nat :=
  match env.fetch with
  | .exception _ => none
  | .response _ _ _ _ contentLength _ => contentLength

/-- The success oracle used by witness runs: submission succeeds with
conversation id conv-1. -/
def genOkResponse : GenResponse :=
  .response true 200 "OK" { success := true, conversation_id := some "conv-1" }

/-- A failing submission oracle (HTTP 500). -/
def genFailResponse : GenResponse :=
  .response false 500 "Server Error" { success := false, conversation_id := none }

/-- A ready artifact with a non-empty download URL. -/
def readyImage : ApiImageResponse :=
  { alt_text := some "alt", download_url := some "https://x/img.png",
    status := some "completed" }

/-- An extraction response whose snapshot holds one ready artifact. -/
def readyResponse : ExtractResponse :=
  .response true 200 "OK" "" { success := true, images := some [readyImage] }

/-- Polling environment whose first attempt already answers one ready
artifact, with instantaneous checks. -/
def envReadyZero : PollEnv :=
  { check := fun _ => readyResponse, dur := fun _ => 0 }

/-- A successful applier oracle. -/
def replaceOkResponse : ReplaceResponse :=
  .httpOk { success := true, newImagePath := some "/images/uploads/s/a.png",
            error := none }

/-- A successful compensation oracle. -/
def deleteOkResponse : DeleteResponse := .response true 200 "OK"

/-- A failing compensation oracle (HTTP 404, the not-found case). -/
def deleteFailResponse : DeleteResponse := .response false 404 "Not Found"

/-- Saga environment of a fully successful run whose compensation fails. -/
def sagaEnvHappy : SagaEnv :=
  { gen := genOkResponse, poll := envReadyZero,
    replace := replaceOkResponse, del := deleteFailResponse }

/-- Saga environment whose submission fails. -/
def sagaEnvGenFail : SagaEnv :=
  { gen := genFailResponse, poll := envReadyZero,
    replace := replaceOkResponse, del := deleteOkResponse }

/-- Saga environment in which every poll answers a zero-artifact snapshot. -/
def sagaEnvEmpty : SagaEnv :=
  { gen := genOkResponse, poll := envEmptyZero,
    replace := replaceOkResponse, del := deleteFailResponse }

/-- Applier environment answering a 15 MiB image body with no content-length
header, all other checks passing. -/
def henvNoHeader : ReplaceHandlerEnv :=
  { method := "POST", imageUrl := some "https://x/img.png",
    repoName := some "repo", slug := some "s",
    oldImagePath := some "/images/uploads/s/a.png",
    urlParse := some { protocol := "https:", hostname := "x" },
    chatgptToken := none,
    fetch := .response true 200 "OK" (some "image/png") none (15 * 1024 * 1024),
    repoExists := true }

/-- Applier environment answering an 11 MiB image body with a truthful
content-length header, all other checks passing. -/
def henvBigHeader : ReplaceHandlerEnv :=
  { method := "POST", imageUrl := some "https://x/img.png",
    repoName := some "repo", slug := some "s",
    oldImagePath := some "/images/uploads/s/a.png",
    urlParse := some { protocol := "https:", hostname := "x" },
    chatgptToken := none,
    fetch := .response true 200 "OK" (some "image/png") (some (11 * 1024 * 1024))
      (11 * 1024 * 1024),
    repoExists := true }

/-- Applier environment hit with a GET request. -/
def henvBadMethod : ReplaceHandlerEnv :=
  { method := "GET", imageUrl := some "https://x/img.png",
    repoName := some "repo", slug := some "s",
    oldImagePath := some "/images/uploads/s/a.png",
    urlParse := some { protocol := "https:", hostname := "x" },
    chatgptToken := none,
    fetch := .response true 200 "OK" (some "image/png") none 4,
    repoExists := true }

/-!
Helper lemmas. None of them is the theorem, witness or counterexample of a
claim; the claim theorems below only apply them.
-/

theorem max_poll_eq : MAX_POLL_TIME_MS = 300000 := rfl

theorem interval_eq : POLL_INTERVAL_MS = 60000 := rfl

/-- The remainingTime test of the loop: the rounded remaining seconds are
nonpositive exactly when fewer than 500 ms remain. -/
theorem jsRoundDiv1000_le_zero (n : Int) : jsRoundDiv1000 n ≤ 0 ↔ n < 500 := by
  unfold jsRoundDiv1000
  rw [Int.fdiv_eq_ediv _ (by norm_num)]
  omega

/-- Once the deadline has passed, the loop returns the loop-exit timeout
record untouched, whatever the fuel. -/
theorem pollGo_deadline (env : PollEnv) (fuel elapsed a s : Nat)
    (log : List (Nat × Nat)) (h : MAX_POLL_TIME_MS ≤ elapsed) :
    pollGo env fuel elapsed a s log =
      ({ success := false, images := none,
         error := some (pollTimeoutAttemptsMsg a) },
       { attempts := a, finishTime := elapsed, sleeps := s, checkLog := log }) := by
  cases fuel with
  | zero => simp [pollGo]
  | succ fuel => simp [pollGo, Nat.not_lt.mpr h]

/-- Step equation: a successful check returns immediately. -/
theorem pollGo_success_step (env : PollEnv) (fuel elapsed a s : Nat)
    (log : List (Nat × Nat)) (hlt : elapsed < MAX_POLL_TIME_MS)
    (hs : (extractImagesOnce (env.check a)).success = true) :
    pollGo env (fuel + 1) elapsed a s log =
      ({ success := true, images := (extractImagesOnce (env.check a)).images,
         error := none },
       { attempts := a + 1, finishTime := elapsed + env.dur a,
         sleeps := s, checkLog := log ++ [(a, elapsed)] }) := by
  simp [pollGo, hlt, hs]

/-- Step equation: a non-pending failure stops the loop immediately, with no
sleep after the failing attempt. -/
theorem pollGo_error_step (env : PollEnv) (fuel elapsed a s : Nat)
    (log : List (Nat × Nat)) (hlt : elapsed < MAX_POLL_TIME_MS)
    (hs : (extractImagesOnce (env.check a)).success = false)
    (hp : (extractImagesOnce (env.check a)).pending = false) :
    pollGo env (fuel + 1) elapsed a s log =
      ({ success := false, images := none,
         error := (extractImagesOnce (env.check a)).error },
       { attempts := a + 1, finishTime := elapsed + env.dur a,
         sleeps := s, checkLog := log ++ [(a, elapsed)] }) := by
  simp [pollGo, hlt, hs, hp]

/-- Step equation: a pending check with fewer than 500 ms of remaining budget
returns the in-loop timeout, with no sleep. -/
theorem pollGo_innerTimeout_step (env : PollEnv) (fuel elapsed a s : Nat)
    (log : List (Nat × Nat)) (hlt : elapsed < MAX_POLL_TIME_MS)
    (hs : (extractImagesOnce (env.check a)).success = false)
    (hp : (extractImagesOnce (env.check a)).pending = true)
    (hb : MAX_POLL_TIME_MS < elapsed + env.dur a + 500) :
    pollGo env (fuel + 1) elapsed a s log =
      ({ success := false, images := none, error := some pollTimeoutMsg },
       { attempts := a + 1, finishTime := elapsed + env.dur a,
         sleeps := s, checkLog := log ++ [(a, elapsed)] }) := by
  have hcond : jsRoundDiv1000 ((MAX_POLL_TIME_MS : Int) - (elapsed + env.dur a : Nat)) ≤ 0 := by
    rw [jsRoundDiv1000_le_zero]
    rw [max_poll_eq] at hb ⊢
    push_cast
    omega
  push_cast at hcond
  simp [pollGo, hlt, hs, hp, hcond]

/-- Step equation: a pending check with at least 500 ms of remaining budget
sleeps exactly one full interval and loops. -/
theorem pollGo_pending_step (env : PollEnv) (fuel elapsed a s : Nat)
    (log : List (Nat × Nat)) (hlt : elapsed < MAX_POLL_TIME_MS)
    (hs : (extractImagesOnce (env.check a)).success = false)
    (hp : (extractImagesOnce (env.check a)).pending = true)
    (hb : elapsed + env.dur a + 500 ≤ MAX_POLL_TIME_MS) :
    pollGo env (fuel + 1) elapsed a s log =
      pollGo env fuel (elapsed + env.dur a + POLL_INTERVAL_MS) (a + 1) (s + 1)
        (log ++ [(a, elapsed)]) := by
  have hcond : ¬ jsRoundDiv1000 ((MAX_POLL_TIME_MS : Int) - (elapsed + env.dur a : Nat)) ≤ 0 := by
    rw [jsRoundDiv1000_le_zero]
    rw [max_poll_eq] at hb ⊢
    push_cast
    omega
  push_cast at hcond
  simp [pollGo, hlt, hs, hp, hcond]

/-- Finish-time bound of the loop: starting from any elapsed time, the loop
returns no later than the deadline plus one sleep interval plus one check
duration, provided every check takes at most D ms. -/
theorem pollGo_finishTime_le (env : PollEnv) (D : Nat) (hD : ∀ n, env.dur n ≤ D) :
    ∀ fuel elapsed a s log,
      (pollGo env fuel elapsed a s log).2.finishTime
        ≤ max elapsed (MAX_POLL_TIME_MS + POLL_INTERVAL_MS + D) := by
  intro fuel
  induction fuel with
  | zero =>
      intro elapsed a s log
      simp only [pollGo]
      exact le_max_left _ _
  | succ fuel ih =>
      intro elapsed a s log
      by_cases hlt : elapsed < MAX_POLL_TIME_MS
      · cases hs : (extractImagesOnce (env.check a)).success with
        | true =>
            rw [pollGo_success_step env fuel elapsed a s log hlt hs]
            dsimp only
            have hd := hD a
            refine le_trans ?_ (le_max_right _ _)
            rw [max_poll_eq] at hlt
            rw [max_poll_eq, interval_eq]
            omega
        | false =>
            cases hp : (extractImagesOnce (env.check a)).pending with
            | true =>
                by_cases hb : elapsed + env.dur a + 500 ≤ MAX_POLL_TIME_MS
                · rw [pollGo_pending_step env fuel elapsed a s log hlt hs hp hb]
                  refine le_trans (ih _ _ _ _) ?_
                  have hd := hD a
                  refine max_le ?_ (le_max_right _ _)
                  refine le_trans ?_ (le_max_right _ _)
                  rw [max_poll_eq] at hb
                  rw [max_poll_eq, interval_eq]
                  omega
                · rw [pollGo_innerTimeout_step env fuel elapsed a s log hlt hs hp
                    (by omega)]
                  dsimp only
                  have hd := hD a
                  refine le_trans ?_ (le_max_right _ _)
                  rw [max_poll_eq] at hlt
                  rw [max_poll_eq, interval_eq]
                  omega
            | false =>
                rw [pollGo_error_step env fuel elapsed a s log hlt hs hp]
                dsimp only
                have hd := hD a
                refine le_trans ?_ (le_max_right _ _)
                rw [max_poll_eq] at hlt
                rw [max_poll_eq, interval_eq]
                omega
      · rw [pollGo_deadline env (fuel + 1) elapsed a s log (Nat.not_lt.mp hlt)]
        exact le_max_left _ _

/-- When every check answers a recoverable pending, the loop can only end in
one of the two timeout records: it never returns success and never loses the
error message. -/
theorem pollGo_pending_timeout (env : PollEnv)
    (hpend : ∀ n, (extractImagesOnce (env.check n)).success = false
      ∧ (extractImagesOnce (env.check n)).pending = true) :
    ∀ fuel elapsed a s log,
      (pollGo env fuel elapsed a s log).1.success = false
      ∧ (pollGo env fuel elapsed a s log).1.images = none
      ∧ ((pollGo env fuel elapsed a s log).1.error = some pollTimeoutMsg
         ∨ ∃ k, (pollGo env fuel elapsed a s log).1.error
             = some (pollTimeoutAttemptsMsg k)) := by
  intro fuel
  induction fuel with
  | zero =>
      intro elapsed a s log
      exact ⟨rfl, rfl, Or.inr ⟨a, rfl⟩⟩
  | succ fuel ih =>
      intro elapsed a s log
      by_cases hlt : elapsed < MAX_POLL_TIME_MS
      · by_cases hb : elapsed + env.dur a + 500 ≤ MAX_POLL_TIME_MS
        · rw [pollGo_pending_step env fuel elapsed a s log hlt (hpend a).1 (hpend a).2 hb]
          exact ih _ _ _ _
        · rw [pollGo_innerTimeout_step env fuel elapsed a s log hlt (hpend a).1 (hpend a).2
            (by omega)]
          exact ⟨rfl, rfl, Or.inl rfl⟩
      · rw [pollGo_deadline env (fuel + 1) elapsed a s log (Nat.not_lt.mp hlt)]
        exact ⟨rfl, rfl, Or.inr ⟨a, rfl⟩⟩

/-- The fuel argument of pollGo is slack: any two fuels large enough that the
remaining budget is exhausted first give the same run. In particular the
entry fuel 6 of extractImagesWithPolling behaves as an unbounded loop, since
every continuing iteration advances elapsed by at least POLL_INTERVAL_MS. -/
theorem pollGo_fuel_stable (env : PollEnv) :
    ∀ f₁ f₂ elapsed a s log,
      MAX_POLL_TIME_MS ≤ elapsed + POLL_INTERVAL_MS * f₁ →
      MAX_POLL_TIME_MS ≤ elapsed + POLL_INTERVAL_MS * f₂ →
      pollGo env f₁ elapsed a s log = pollGo env f₂ elapsed a s log := by
  intro f₁
  induction f₁ with
  | zero =>
      intro f₂ elapsed a s log h₁ h₂
      have he : MAX_POLL_TIME_MS ≤ elapsed := by
        simpa using h₁
      rw [pollGo_deadline env 0 elapsed a s log he,
        pollGo_deadline env f₂ elapsed a s log he]
  | succ f₁ ih =>
      intro f₂ elapsed a s log h₁ h₂
      by_cases hlt : elapsed < MAX_POLL_TIME_MS
      · cases f₂ with
        | zero =>
            exfalso
            rw [max_poll_eq] at h₂ hlt
            omega
        | succ f₂ =>
            cases hs : (extractImagesOnce (env.check a)).success with
            | true =>
                rw [pollGo_success_step env f₁ elapsed a s log hlt hs,
                  pollGo_success_step env f₂ elapsed a s log hlt hs]
            | false =>
                cases hp : (extractImagesOnce (env.check a)).pending with
                | true =>
                    by_cases hb : elapsed + env.dur a + 500 ≤ MAX_POLL_TIME_MS
                    · rw [pollGo_pending_step env f₁ elapsed a s log hlt hs hp hb,
                        pollGo_pending_step env f₂ elapsed a s log hlt hs hp hb]
                      refine ih f₂ _ _ _ _ ?_ ?_
                      · rw [max_poll_eq, interval_eq] at h₁ ⊢
                        omega
                      · rw [max_poll_eq, interval_eq] at h₂ ⊢
                        omega
                    · rw [pollGo_innerTimeout_step env f₁ elapsed a s log hlt hs hp
                          (by omega),
                        pollGo_innerTimeout_step env f₂ elapsed a s log hlt hs hp
                          (by omega)]
                | false =>
                    rw [pollGo_error_step env f₁ elapsed a s log hlt hs hp,
                      pollGo_error_step env f₂ elapsed a s log hlt hs hp]
      · rw [pollGo_deadline env (f₁ + 1) elapsed a s log (Nat.not_lt.mp hlt),
          pollGo_deadline env f₂ elapsed a s log (Nat.not_lt.mp hlt)]

/-- Appending one element keeps the head of a nonempty list. -/
theorem head?_append_singleton {α : Type} (l : List α) (x : α) (h : l ≠ []) :
    (l ++ [x]).head? = l.head? := by
  cases l with
  | nil => exact absurd rfl h
  | cons a t => rfl

/-- Appending one element linked to the last element preserves Chain'. -/
theorem chain'_append_singleton {α : Type} (R : α → α → Prop) (l : List α) (x : α)
    (hch : List.Chain' R l) (hlink : ∀ p, l.getLast? = some p → R p x) :
    List.Chain' R (l ++ [x]) := by
  rw [List.chain'_append]
  refine ⟨hch, List.chain'_singleton x, ?_⟩
  intro p hp y hy
  have hx : y = x := by
    have := hy
    simp at this
    exact this.symm
  subst hx
  exact hlink p (by simpa using hp)

/-- Relation between two consecutive entries of the check log: attempt
indices increase by one and the later attempt starts exactly one check
duration plus one full sleep interval after the earlier one started. -/
def pollRel (env : PollEnv) (p q : Nat × Nat) : Prop :=
  q.1 = p.1 + 1 ∧ q.2 = p.2 + env.dur p.1 + POLL_INTERVAL_MS

/-- The loop never disturbs the head of an already nonempty check log. -/
theorem pollGo_checkLog_head (env : PollEnv) :
    ∀ fuel elapsed a s log, log ≠ [] →
      (pollGo env fuel elapsed a s log).2.checkLog.head? = log.head? := by
  intro fuel
  induction fuel with
  | zero =>
      intro elapsed a s log _
      rfl
  | succ fuel ih =>
      intro elapsed a s log hlog
      by_cases hlt : elapsed < MAX_POLL_TIME_MS
      · cases hs : (extractImagesOnce (env.check a)).success with
        | true =>
            rw [pollGo_success_step env fuel elapsed a s log hlt hs]
            exact head?_append_singleton log (a, elapsed) hlog
        | false =>
            cases hp : (extractImagesOnce (env.check a)).pending with
            | true =>
                by_cases hb : elapsed + env.dur a + 500 ≤ MAX_POLL_TIME_MS
                · rw [pollGo_pending_step env fuel elapsed a s log hlt hs hp hb]
                  rw [ih _ _ _ _ (by simp)]
                  exact head?_append_singleton log (a, elapsed) hlog
                · rw [pollGo_innerTimeout_step env fuel elapsed a s log hlt hs hp
                    (by omega)]
                  exact head?_append_singleton log (a, elapsed) hlog
            | false =>
                rw [pollGo_error_step env fuel elapsed a s log hlt hs hp]
                exact head?_append_singleton log (a, elapsed) hlog
      · rw [pollGo_deadline env (fuel + 1) elapsed a s log (Nat.not_lt.mp hlt)]

/-- Invariant: when the accumulated log is a chain and its last entry is one
check duration plus one interval behind the current elapsed time with the
preceding attempt index, the final check log is a chain as well. -/
theorem pollGo_checkLog_chain (env : PollEnv) :
    ∀ fuel elapsed a s log,
      List.Chain' (pollRel env) log →
      (∀ p, log.getLast? = some p →
        p.1 + 1 = a ∧ elapsed = p.2 + env.dur p.1 + POLL_INTERVAL_MS) →
      List.Chain' (pollRel env) (pollGo env fuel elapsed a s log).2.checkLog := by
  intro fuel
  induction fuel with
  | zero =>
      intro elapsed a s log hch _
      exact hch
  | succ fuel ih =>
      intro elapsed a s log hch hlast
      have happ : List.Chain' (pollRel env) (log ++ [(a, elapsed)]) := by
        refine chain'_append_singleton _ log (a, elapsed) hch ?_
        intro p hp
        exact ⟨((hlast p hp).1).symm, (hlast p hp).2⟩
      by_cases hlt : elapsed < MAX_POLL_TIME_MS
      · cases hs : (extractImagesOnce (env.check a)).success with
        | true =>
            rw [pollGo_success_step env fuel elapsed a s log hlt hs]
            exact happ
        | false =>
            cases hp : (extractImagesOnce (env.check a)).pending with
            | true =>
                by_cases hb : elapsed + env.dur a + 500 ≤ MAX_POLL_TIME_MS
                · rw [pollGo_pending_step env fuel elapsed a s log hlt hs hp hb]
                  refine ih _ _ _ _ happ ?_
                  intro p hp'
                  have hpx : p = (a, elapsed) := by
                    rw [List.getLast?_concat] at hp'
                    exact (Option.some_inj.mp hp').symm
                  subst hpx
                  exact ⟨rfl, rfl⟩
                · rw [pollGo_innerTimeout_step env fuel elapsed a s log hlt hs hp
                    (by omega)]
                  exact happ
            | false =>
                rw [pollGo_error_step env fuel elapsed a s log hlt hs hp]
                exact happ
      · rw [pollGo_deadline env (fuel + 1) elapsed a s log (Nat.not_lt.mp hlt)]
        exact hch

/-- With instantaneous always-pending checks, starting at attempt a with
elapsed time a intervals, the loop ends in the loop-exit timeout with exactly
five attempts, at exactly the deadline. -/
theorem pollGo_pendingZero (env : PollEnv) (hd : ∀ n, env.dur n = 0)
    (hpend : ∀ n, (extractImagesOnce (env.check n)).success = false
      ∧ (extractImagesOnce (env.check n)).pending = true) :
    ∀ j a s log, a + j = 5 →
      (pollGo env (j + 1) (POLL_INTERVAL_MS * a) a s log).1.error
          = some (pollTimeoutAttemptsMsg 5)
      ∧ (pollGo env (j + 1) (POLL_INTERVAL_MS * a) a s log).2.attempts = 5
      ∧ (pollGo env (j + 1) (POLL_INTERVAL_MS * a) a s log).2.finishTime
          = MAX_POLL_TIME_MS := by
  intro j
  induction j with
  | zero =>
      intro a s log ha
      have ha5 : a = 5 := by omega
      subst ha5
      rw [pollGo_deadline env 1 (POLL_INTERVAL_MS * 5) 5 s log
        (by rw [max_poll_eq, interval_eq])]
      exact ⟨rfl, rfl, by rw [max_poll_eq, interval_eq]⟩
  | succ j ih =>
      intro a s log ha
      have hlt : POLL_INTERVAL_MS * a < MAX_POLL_TIME_MS := by
        rw [max_poll_eq, interval_eq]
        omega
      have hb : POLL_INTERVAL_MS * a + env.dur a + 500 ≤ MAX_POLL_TIME_MS := by
        rw [hd a, max_poll_eq, interval_eq]
        omega
      rw [pollGo_pending_step env (j + 1) (POLL_INTERVAL_MS * a) a s log hlt
        (hpend a).1 (hpend a).2 hb]
      have harg : POLL_INTERVAL_MS * a + env.dur a + POLL_INTERVAL_MS
          = POLL_INTERVAL_MS * (a + 1) := by
        rw [hd a]
        ring
      rw [harg]
      exact ih (a + 1) (s + 1) (log ++ [(a, POLL_INTERVAL_MS * a)]) (by omega)

/-- The head of a filtered list is the first element satisfying the
predicate. -/
theorem head?_filter_eq_find? {α : Type} (p : α → Bool) :
    ∀ l : List α, (l.filter p).head? = l.find? p := by
  intro l
  induction l with
  | nil => rfl
  | cons a t ih =>
      cases hpa : p a with
      | true => simp [List.filter_cons, hpa]
      | false => simp [List.filter_cons, hpa, ih]

/-- C1: in every run of processImage, deleteConversation is invoked exactly
once with the obtained conversation id when and only when generateImage
succeeded; every failure path after submission, and the success path,
compensates exactly once, and a submission failure never compensates. -/
theorem c1_compensation_exactly_once (env : SagaEnv) :
    (processImage env).deleteCalls =
      if (generateImage env.gen).success
      then [(generateImage env.gen).conversationId.getD ""] else [] := by
  cases hg : (generateImage env.gen).success with
  | false => simp [processImage, hg]
  | true =>
      simp only [processImage, hg, Bool.not_true, Bool.false_eq_true, if_false, if_true]
      split
      · rfl
      · split
        · rfl
        · split
          · rfl
          · split
            · rfl
            · rfl

/-- C6: the outcome of the compensating delete never changes the returned
record of processImage: the result is identical whatever oracle answers the
delete call, and the success flag of the run is determined by the submit,
poll, selection and apply stages alone. -/
theorem c6_delete_failure_harmless :
    (∀ (env : SagaEnv) (d₁ d₂ : DeleteResponse),
      (processImage { env with del := d₁ }).result
        = (processImage { env with del := d₂ }).result)
    ∧ ∀ env : SagaEnv,
        (processImage env).result.success
          = ((generateImage env.gen).success
             && (extractImagesWithPolling env.poll).1.success
             && jsTruthy (firstUrl env)
             && (replaceImageFromUrl env.replace).success) := by
  constructor
  · intro env d₁ d₂
    rfl
  · intro env
    cases hg : (generateImage env.gen).success with
    | false => simp [processImage, hg]
    | true =>
        cases he : (extractImagesWithPolling env.poll).1.success with
        | false => simp [processImage, hg, he]
        | true =>
            rcases himg : (extractImagesWithPolling env.poll).1.images.getD []
              with _ | ⟨img0, rest⟩
            · simp [processImage, firstUrl, jsTruthy, hg, he, himg]
            · cases hu : jsTruthy img0.download_url with
              | false => simp [processImage, firstUrl, hg, he, himg, hu]
              | true =>
                  cases hr : (replaceImageFromUrl env.replace).success with
                  | false => simp [processImage, firstUrl, hg, he, himg, hu, hr]
                  | true => simp [processImage, firstUrl, hg, he, himg, hu, hr]

/-- C9: the record returned by processImage carries the conversation id
exactly when the submission succeeded (on every later failure path and on
success), and never when the submission itself failed; moreover generateImage
reports success exactly when it obtained a conversation id. -/
theorem c9_failure_carries_handle :
    (∀ env : SagaEnv,
      (processImage env).result.conversationId
        = if (generateImage env.gen).success
          then some ((generateImage env.gen).conversationId.getD "") else none)
    ∧ ∀ r : GenResponse,
        (generateImage r).success = (generateImage r).conversationId.isSome := by
  constructor
  · intro env
    cases hg : (generateImage env.gen).success with
    | false => simp [processImage, hg]
    | true =>
        simp only [processImage, hg, Bool.not_true, Bool.false_eq_true, if_false, if_true]
        split
        · rfl
        · split
          · rfl
          · split
            · rfl
            · split
              · rfl
              · rfl
  · intro r
    cases r with
    | exception msg => rfl
    | response ok status statusText data =>
        rcases data with ⟨ds, dc⟩
        cases ok with
        | false => simp [generateImage]
        | true =>
            cases ds with
            | false => simp [generateImage]
            | true =>
                rcases dc with _ | c
                · simp [generateImage, jsTruthy]
                · by_cases hc : c = ""
                  · simp [generateImage, jsTruthy, hc]
                  · simp [generateImage, jsTruthy, hc]

/-- C10: every step function of the saga is total at its interface: the
exception branch of each one returns a failure record with a Network error
style message instead of propagating, and every failing result of each one
carries an error string. -/
theorem c10_steps_total :
    (∀ msg, generateImage (.exception msg)
        = { success := false, conversationId := none,
            error := some ("Network error: " ++ msg) })
    ∧ (∀ msg, extractImagesOnce (.exception msg)
        = { success := false, images := none,
            error := some ("Network error: " ++ msg), pending := false })
    ∧ (∀ msg, replaceImageFromUrl (.exception msg)
        = { success := false, newImagePath := none,
            error := some ("Failed to replace image: " ++ msg) })
    ∧ (∀ msg, deleteConversation (.exception msg)
        = { success := false, error := some ("Network error: " ++ msg) })
    ∧ (∀ r, (generateImage r).success = false → (generateImage r).error.isSome = true)
    ∧ (∀ r, (extractImagesOnce r).success = false
        → (extractImagesOnce r).error.isSome = true)
    ∧ (∀ r, (replaceImageFromUrl r).success = false
        → (replaceImageFromUrl r).error.isSome = true)
    ∧ (∀ r, (deleteConversation r).success = false
        → (deleteConversation r).error.isSome = true) := by
  refine ⟨fun msg => rfl, fun msg => rfl, fun msg => rfl, fun msg => rfl,
    ?_, ?_, ?_, ?_⟩
  · intro r h
    have key : (generateImage r).success = true
        ∨ (generateImage r).error.isSome = true := by
      cases r with
      | exception msg => exact Or.inr rfl
      | response ok status statusText data =>
          simp only [generateImage]
          split
          · exact Or.inr rfl
          · split
            · exact Or.inl rfl
            · exact Or.inr rfl
    rcases key with hk | hk
    · rw [h] at hk
      cases hk
    · exact hk
  · intro r h
    have key : (extractImagesOnce r).success = true
        ∨ (extractImagesOnce r).error.isSome = true := by
      cases r with
      | exception msg => exact Or.inr rfl
      | response ok status statusText errorText data =>
          simp only [extractImagesOnce]
          split
          · exact Or.inr rfl
          · split
            · split
              · split
                · exact Or.inl rfl
                · exact Or.inr rfl
              · exact Or.inr rfl
            · exact Or.inr rfl
    rcases key with hk | hk
    · rw [h] at hk
      cases hk
    · exact hk
  · intro r h
    have key : (replaceImageFromUrl r).success = true
        ∨ (replaceImageFromUrl r).error.isSome = true := by
      cases r with
      | exception msg => exact Or.inr rfl
      | httpError status statusText errJson => exact Or.inr rfl
      | httpOk result =>
          simp only [replaceImageFromUrl]
          split
          · exact Or.inl rfl
          · exact Or.inr rfl
    rcases key with hk | hk
    · rw [h] at hk
      cases hk
    · exact hk
  · intro r h
    have key : (deleteConversation r).success = true
        ∨ (deleteConversation r).error.isSome = true := by
      cases r with
      | exception msg => exact Or.inr rfl
      | response ok status statusText =>
          simp only [deleteConversation]
          split
          · exact Or.inr rfl
          · exact Or.inl rfl
    rcases key with hk | hk
    · rw [h] at hk
      cases hk
    · exact hk

/-- C10 witness: a thrown submission at a concrete message is a failing
record with an error string. -/
theorem c10_steps_total_witness :
    (generateImage (.exception "boom")).error.isSome = true :=
  c10_steps_total.2.2.2.2.1 (.exception "boom") rfl

/-- C5: artifact selection is deterministic and positional. A snapshot with
at least one ready artifact makes extractImagesOnce return exactly the ready
artifacts in input order; the head of that list is the first ready artifact
of the snapshot in input order (find?); and the saga applies precisely the
download URL of that first returned artifact, with no randomness or quality
heuristic anywhere. -/
theorem c5_first_ready_selection :
    (∀ (status : Nat) (statusText errorText : String) (l : List ApiImageResponse),
      (∃ img ∈ l, isReady img = true) →
        extractImagesOnce (.response true status statusText errorText
            { success := true, images := some l })
          = { success := true, images := some (l.filter isReady),
              error := none, pending := false })
    ∧ (∀ l : List ApiImageResponse, (l.filter isReady).head? = l.find? isReady)
    ∧ (∀ env : SagaEnv,
        (processImage env).replaceCalls
          = if (generateImage env.gen).success
               && (extractImagesWithPolling env.poll).1.success
               && jsTruthy (firstUrl env)
            then [(firstUrl env).getD ""] else []) := by
  refine ⟨?_, head?_filter_eq_find? isReady, ?_⟩
  · intro status statusText errorText l hex
    obtain ⟨img, hmem, hready⟩ := hex
    have hne : l ≠ [] := by
      rintro rfl
      cases hmem
    have hfil : l.filter isReady ≠ [] := by
      intro hnil
      have : img ∈ l.filter isReady := List.mem_filter.mpr ⟨hmem, hready⟩
      rw [hnil] at this
      cases this
    simp [extractImagesOnce, hne, hfil]
  · intro env
    cases hg : (generateImage env.gen).success with
    | false => simp [processImage, hg]
    | true =>
        cases he : (extractImagesWithPolling env.poll).1.success with
        | false => simp [processImage, hg, he]
        | true =>
            rcases himg : (extractImagesWithPolling env.poll).1.images.getD []
              with _ | ⟨img0, rest⟩
            · simp [processImage, firstUrl, jsTruthy, hg, he, himg]
            · cases hu : jsTruthy img0.download_url with
              | false => simp [processImage, firstUrl, hg, he, himg, hu]
              | true =>
                  cases hr : (replaceImageFromUrl env.replace).success with
                  | false => simp [processImage, firstUrl, hg, he, himg, hu, hr]
                  | true => simp [processImage, firstUrl, hg, he, himg, hu, hr]

/-- C5 witness: on the concrete one-ready-artifact snapshot the selection
returns the filtered ready list. -/
theorem c5_first_ready_selection_witness :
    extractImagesOnce (.response true 200 "OK" ""
        { success := true, images := some [readyImage] })
      = { success := true, images := some ([readyImage].filter isReady),
          error := none, pending := false } :=
  c5_first_ready_selection.1 200 "OK" "" [readyImage]
    ⟨readyImage, by simp, by decide⟩

/-- C2 counterexample: the claim bounds the return time by the deadline plus
one in-flight check duration. In the environment envPendingTen every check
answers pending and lasts 10 ms; the loop returns at 300050 ms, which
exceeds MAX_POLL_TIME_MS plus the 10 ms check duration, because the final
mandatory sleep runs past the deadline. -/
theorem c2_deadline_counterexample :
    (extractImagesWithPolling envPendingTen).2.finishTime = 300050
    ∧ ¬ (extractImagesWithPolling envPendingTen).2.finishTime
        ≤ MAX_POLL_TIME_MS + 10 := by
  decide

/-- C2 amended: the loop returns no later than the deadline plus one full
sleep interval plus one in-flight check duration; a check behaviour that
always reports pending ends in a timeout error record (success false, no
images, one of the two timeout messages); with instantaneous always-pending
checks the loop performs exactly 5 attempts and reports them in the timeout
message. -/
theorem c2_poll_deadline_amended (env : PollEnv) (D : Nat)
    (hD : ∀ n, env.dur n ≤ D) :
    (extractImagesWithPolling env).2.finishTime
        ≤ MAX_POLL_TIME_MS + POLL_INTERVAL_MS + D
    ∧ ((∀ n, (extractImagesOnce (env.check n)).success = false
          ∧ (extractImagesOnce (env.check n)).pending = true) →
        (extractImagesWithPolling env).1.success = false
        ∧ (extractImagesWithPolling env).1.images = none
        ∧ ((extractImagesWithPolling env).1.error = some pollTimeoutMsg
           ∨ ∃ k, (extractImagesWithPolling env).1.error
               = some (pollTimeoutAttemptsMsg k)))
    ∧ ((∀ n, env.dur n = 0) →
        (∀ n, (extractImagesOnce (env.check n)).success = false
          ∧ (extractImagesOnce (env.check n)).pending = true) →
        (extractImagesWithPolling env).2.attempts = 5
        ∧ (extractImagesWithPolling env).1.error
            = some (pollTimeoutAttemptsMsg 5)) := by
  refine ⟨?_, ?_, ?_⟩
  · have h := pollGo_finishTime_le env D hD 6 0 0 0 []
    simpa [extractImagesWithPolling] using h
  · intro hpend
    exact pollGo_pending_timeout env hpend 6 0 0 0 []
  · intro hd hpend
    have h := pollGo_pendingZero env hd hpend 5 0 0 [] (by omega)
    exact ⟨h.2.1, h.1⟩

/-- C2 witness: the amended bound and the 5-attempt timeout at the concrete
instantaneous always-pending environment. -/
theorem c2_poll_deadline_witness :
    (extractImagesWithPolling envPendingZero).2.finishTime
        ≤ MAX_POLL_TIME_MS + POLL_INTERVAL_MS + 0
    ∧ (extractImagesWithPolling envPendingZero).2.attempts = 5
    ∧ (extractImagesWithPolling envPendingZero).1.error
        = some (pollTimeoutAttemptsMsg 5) := by
  have h := c2_poll_deadline_amended envPendingZero 0 (fun n => Nat.le_refl 0)
  have h3 := h.2.2 (fun n => rfl) (fun n => ⟨rfl, rfl⟩)
  exact ⟨h.1, h3.1, h3.2⟩

/-- C3 counterexample: a snapshot with zero artifacts in total is answered as
a recoverable pending (Images still being generated), not as a
non-recoverable error, and the saga keeps polling until the deadline: with
every poll answering the empty snapshot the loop performs 5 attempts and
fails with the timeout message, and the whole saga still compensates once,
contradicting the claimed immediate NoArtifactsError stop. -/
theorem c3_empty_snapshot_counterexample :
    (extractImagesOnce emptySnapshotResponse).pending = true
    ∧ (extractImagesOnce emptySnapshotResponse).success = false
    ∧ (extractImagesOnce emptySnapshotResponse).error
        = some "Images still being generated"
    ∧ (extractImagesWithPolling envEmptyZero).2.attempts = 5
    ∧ (extractImagesWithPolling envEmptyZero).1.error
        = some (pollTimeoutAttemptsMsg 5)
    ∧ (processImage sagaEnvEmpty).deleteCalls = ["conv-1"] := by
  decide

/-- C3 amended: a zero-artifact snapshot is treated as recoverable pending;
when every poll answers a zero-artifact snapshot after a successful
submission, the run fails at the poll stage with one of the two timeout
error messages (not an immediate no-artifacts stop), and the handle is still
compensated exactly once. -/
theorem c3_empty_snapshot_amended (env : SagaEnv)
    (hg : (generateImage env.gen).success = true)
    (hempty : ∀ n, ∃ status statusText errorText s,
      env.poll.check n = .response true status statusText errorText
        { success := s, images := some [] }) :
    (processImage env).result.success = false
    ∧ ((processImage env).result.error = some pollTimeoutMsg
       ∨ ∃ k, (processImage env).result.error = some (pollTimeoutAttemptsMsg k))
    ∧ (processImage env).deleteCalls
        = [(generateImage env.gen).conversationId.getD ""] := by
  have hpend : ∀ n, (extractImagesOnce (env.poll.check n)).success = false
      ∧ (extractImagesOnce (env.poll.check n)).pending = true := by
    intro n
    obtain ⟨status, statusText, errorText, s, hn⟩ := hempty n
    rw [hn]
    constructor <;> simp [extractImagesOnce]
  have hres := pollGo_pending_timeout env.poll hpend 6 0 0 0 []
  have hsf : (extractImagesWithPolling env.poll).1.success = false := hres.1
  refine ⟨?_, ?_, ?_⟩
  · simp [processImage, hg, hsf]
  · have herr : (processImage env).result.error
        = (extractImagesWithPolling env.poll).1.error := by
      simp [processImage, hg, hsf]
    rw [herr]
    exact hres.2.2
  · simp [processImage, hg, hsf]

/-- C3 witness: the amended behaviour at the concrete all-empty-snapshot
saga environment. -/
theorem c3_empty_snapshot_witness :
    (processImage sagaEnvEmpty).result.success = false
    ∧ ((processImage sagaEnvEmpty).result.error = some pollTimeoutMsg
       ∨ ∃ k, (processImage sagaEnvEmpty).result.error
           = some (pollTimeoutAttemptsMsg k))
    ∧ (processImage sagaEnvEmpty).deleteCalls
        = [(generateImage sagaEnvEmpty.gen).conversationId.getD ""] :=
  c3_empty_snapshot_amended sagaEnvEmpty (by decide)
    (fun n => ⟨200, "OK", "", true, rfl⟩)

/-- The first check of a polling run starts at time zero: the head of the
check log of the entry run is attempt 0 at elapsed 0. -/
theorem extractImagesWithPolling_head (env : PollEnv) :
    (extractImagesWithPolling env).2.checkLog.head? = some (0, 0) := by
  have h0 : (0 : Nat) < MAX_POLL_TIME_MS := by decide
  show (pollGo env (5 + 1) 0 0 0 []).2.checkLog.head? = some (0, 0)
  cases hs : (extractImagesOnce (env.check 0)).success with
  | true =>
      rw [pollGo_success_step env 5 0 0 0 [] h0 hs]
      rfl
  | false =>
      cases hp : (extractImagesOnce (env.check 0)).pending with
      | false =>
          rw [pollGo_error_step env 5 0 0 0 [] h0 hs hp]
          rfl
      | true =>
          by_cases hb : 0 + env.dur 0 + 500 ≤ MAX_POLL_TIME_MS
          · rw [pollGo_pending_step env 5 0 0 0 [] h0 hs hp hb]
            rw [pollGo_checkLog_head env 5 _ _ _ _ (by simp)]
            rfl
          · rw [pollGo_innerTimeout_step env 5 0 0 0 [] h0 hs hp (by omega)]
            rfl

/-- The check log of any polling run is a chain for pollRel: consecutive
attempts are numbered consecutively and spaced by exactly one check duration
plus one full sleep interval. -/
theorem extractImagesWithPolling_chain (env : PollEnv) :
    List.Chain' (pollRel env) (extractImagesWithPolling env).2.checkLog := by
  show List.Chain' (pollRel env) (pollGo env 6 0 0 0 []).2.checkLog
  exact pollGo_checkLog_chain env 6 0 0 0 [] List.chain'_nil
    (fun p hp => by simp at hp)

/-- C8 counterexample: the claim demands a sleep after every pending result
whose remaining budget is positive. In envPendingLate the first check answers
pending after 299700 ms, leaving a positive remaining budget of 300 ms, yet
the loop sleeps zero times, performs no further attempt and returns the
in-loop timeout, because the source compares the remaining budget rounded to
whole seconds (Math.round) with zero and 300 ms rounds to zero. -/
theorem c8_sleep_skip_counterexample :
    (extractImagesOnce (envPendingLate.check 0)).pending = true
    ∧ envPendingLate.dur 0 < MAX_POLL_TIME_MS
    ∧ (extractImagesWithPolling envPendingLate).2.sleeps = 0
    ∧ (extractImagesWithPolling envPendingLate).2.attempts = 1
    ∧ (extractImagesWithPolling envPendingLate).1.error = some pollTimeoutMsg := by
  decide

/-- C8 amended: the first check of a run starts immediately at elapsed 0
with no initial sleep; any two consecutive checks of a run are separated by
exactly the duration of the earlier check plus one full sleep interval; and
at EVERY state of the loop (any attempt index a, elapsed time under the
deadline, sleep count and log, hence every mid-run attempt, pollGo being the
loop body that extractImagesWithPolling enters at fuel 6): a non-pending
error from the check stops the loop at once, with the sleep counter
unchanged and the finish time at the end of that check; a pending check
whose remaining budget is below 500 ms (rounding to zero whole seconds)
returns the in-loop timeout at once, again with no sleep; and a pending
check whose remaining budget is at least 500 ms always continues with
exactly one full sleep interval - the next iteration starts exactly at the
check end plus POLL_INTERVAL_MS, the attempt counter increments by one and
the sleep counter increments by one. -/
theorem c8_poll_pacing_amended :
    (∀ env : PollEnv,
      (extractImagesWithPolling env).2.checkLog.head? = some (0, 0))
    ∧ (∀ env : PollEnv,
        List.Chain' (pollRel env) (extractImagesWithPolling env).2.checkLog)
    ∧ (∀ (env : PollEnv) (fuel elapsed a s : Nat) (log : List (Nat × Nat)),
        elapsed < MAX_POLL_TIME_MS →
        (extractImagesOnce (env.check a)).success = false →
        (extractImagesOnce (env.check a)).pending = false →
        pollGo env (fuel + 1) elapsed a s log
          = ({ success := false, images := none,
               error := (extractImagesOnce (env.check a)).error },
             { attempts := a + 1, finishTime := elapsed + env.dur a,
               sleeps := s, checkLog := log ++ [(a, elapsed)] }))
    ∧ (∀ (env : PollEnv) (fuel elapsed a s : Nat) (log : List (Nat × Nat)),
        elapsed < MAX_POLL_TIME_MS →
        (extractImagesOnce (env.check a)).success = false →
        (extractImagesOnce (env.check a)).pending = true →
        MAX_POLL_TIME_MS < elapsed + env.dur a + 500 →
        pollGo env (fuel + 1) elapsed a s log
          = ({ success := false, images := none, error := some pollTimeoutMsg },
             { attempts := a + 1, finishTime := elapsed + env.dur a,
               sleeps := s, checkLog := log ++ [(a, elapsed)] }))
    ∧ (∀ (env : PollEnv) (fuel elapsed a s : Nat) (log : List (Nat × Nat)),
        elapsed < MAX_POLL_TIME_MS →
        (extractImagesOnce (env.check a)).success = false →
        (extractImagesOnce (env.check a)).pending = true →
        elapsed + env.dur a + 500 ≤ MAX_POLL_TIME_MS →
        pollGo env (fuel + 1) elapsed a s log
          = pollGo env fuel (elapsed + env.dur a + POLL_INTERVAL_MS) (a + 1)
              (s + 1) (log ++ [(a, elapsed)])) := by
  refine ⟨extractImagesWithPolling_head, extractImagesWithPolling_chain,
    ?_, ?_, ?_⟩
  · intro env fuel elapsed a s log hlt hs hp
    exact pollGo_error_step env fuel elapsed a s log hlt hs hp
  · intro env fuel elapsed a s log hlt hs hp hb
    exact pollGo_innerTimeout_step env fuel elapsed a s log hlt hs hp hb
  · intro env fuel elapsed a s log hlt hs hp hb
    exact pollGo_pending_step env fuel elapsed a s log hlt hs hp hb

/-- C8 witness: pacing facts at concrete mid-run states - an error stop at
attempt 2 of an always-erroring run, the sub-500 ms immediate timeout at
attempt 1 of a run of 299700 ms pending checks, and the exact one-interval
sleep at attempt 1 of an instantaneous always-pending run. -/
theorem c8_poll_pacing_witness :
    (extractImagesWithPolling envPendingZero).2.checkLog.head? = some (0, 0)
    ∧ List.Chain' (pollRel envPendingZero)
        (extractImagesWithPolling envPendingZero).2.checkLog
    ∧ pollGo envErrorZero (3 + 1) 120000 2 2 [(0, 0), (1, 60000)]
        = ({ success := false, images := none,
             error := (extractImagesOnce (envErrorZero.check 2)).error },
           { attempts := 2 + 1, finishTime := 120000 + envErrorZero.dur 2,
             sleeps := 2, checkLog := [(0, 0), (1, 60000)] ++ [(2, 120000)] })
    ∧ pollGo envPendingLate (4 + 1) 60000 1 1 [(0, 0)]
        = ({ success := false, images := none, error := some pollTimeoutMsg },
           { attempts := 1 + 1, finishTime := 60000 + envPendingLate.dur 1,
             sleeps := 1, checkLog := [(0, 0)] ++ [(1, 60000)] })
    ∧ pollGo envPendingZero (4 + 1) 60000 1 1 [(0, 0)]
        = pollGo envPendingZero 4
            (60000 + envPendingZero.dur 1 + POLL_INTERVAL_MS) (1 + 1) (1 + 1)
            ([(0, 0)] ++ [(1, 60000)]) :=
  ⟨c8_poll_pacing_amended.1 envPendingZero,
   c8_poll_pacing_amended.2.1 envPendingZero,
   c8_poll_pacing_amended.2.2.1 envErrorZero 3 120000 2 2 [(0, 0), (1, 60000)]
     (by decide) rfl rfl,
   c8_poll_pacing_amended.2.2.2.1 envPendingLate 4 60000 1 1 [(0, 0)]
     (by decide) rfl rfl (by decide),
   c8_poll_pacing_amended.2.2.2.2 envPendingZero 4 60000 1 1 [(0, 0)]
     (by decide) rfl rfl (by decide)⟩

/-- C4: no partial apply. The applier writes nothing on any error outcome
(every non-success response leaves the write log empty), a performed write
implies that every guard (URL validation, fetch success, content-type check,
content-length ceiling, repository existence) passed and the response is a
success; and the saga never even invokes the applier when the run failed
before the apply stage (submit failure, poll failure, or a first artifact
without a truthy download URL). -/
theorem c4_no_partial_apply :
    (∀ env : ReplaceHandlerEnv,
      ((replaceFromUrlHandler env).success = false →
        (replaceFromUrlHandler env).writes = [])
      ∧ ((replaceFromUrlHandler env).writes ≠ [] →
          handlerChecksPassed env = true
          ∧ (replaceFromUrlHandler env).status = 200))
    ∧ (∀ env : SagaEnv,
        ((generateImage env.gen).success = false
          ∨ (extractImagesWithPolling env.poll).1.success = false
          ∨ jsTruthy (firstUrl env) = false) →
        (processImage env).replaceCalls = []) := by
  constructor
  · intro env
    have key : (replaceFromUrlHandler env).writes = []
        ∨ ((replaceFromUrlHandler env).success = true
           ∧ (replaceFromUrlHandler env).status = 200
           ∧ handlerChecksPassed env = true) := by
      rcases env with ⟨m, iu, rn, sl, oip, up, tok, fetch, re⟩
      cases hm : m == "POST" with
      | false => exact Or.inl (by simp [replaceFromUrlHandler, bne, hm])
      | true =>
      cases hfields : (jsTruthy iu && jsTruthy rn && jsTruthy sl && jsTruthy oip) with
      | false => exact Or.inl (by simp [replaceFromUrlHandler, bne, hm, hfields])
      | true =>
      rcases up with _ | url
      · exact Or.inl (by simp [replaceFromUrlHandler, bne, hm, hfields])
      cases hproto : (url.protocol == "http:" || url.protocol == "https:") with
      | false =>
          exact Or.inl (by simp [replaceFromUrlHandler, bne, hm, hfields, hproto])
      | true =>
      cases htok : ((url.hostname == "chatgpt.com"
          || strEndsWith url.hostname ".chatgpt.com") && !(jsTruthy tok)) with
      | true =>
          exact Or.inl (by simp [replaceFromUrlHandler, bne, hm, hfields, hproto, htok])
      | false =>
      rcases fetch with msg | ⟨ok, st, stx, ct, cl, bs⟩
      · exact Or.inl (by simp [replaceFromUrlHandler, bne, hm, hfields, hproto, htok])
      cases hok : ok with
      | false =>
          exact Or.inl (by simp [replaceFromUrlHandler, bne, hm, hfields, hproto, htok])
      | true =>
      cases hct : (match ct with | some c => strStartsWith c "image/" | none => false) with
      | false =>
          exact Or.inl
            (by simp [replaceFromUrlHandler, bne, hm, hfields, hproto, htok, hct])
      | true =>
      have hatoms := hfields
      simp only [Bool.and_eq_true] at hatoms
      obtain ⟨⟨⟨hiu, hrn⟩, hsl⟩, hoip⟩ := hatoms
      rcases cl with _ | n
      · cases hre : re with
        | false =>
            exact Or.inl
              (by simp [replaceFromUrlHandler, bne, hm, hfields, hproto, htok, hct, hre])
        | true =>
            refine Or.inr ⟨?_, ?_, ?_⟩
            · simp [replaceFromUrlHandler, bne, hm, hfields, hproto, htok, hct, hre]
            · simp [replaceFromUrlHandler, bne, hm, hfields, hproto, htok, hct, hre]
            · simp [handlerChecksPassed, preSizeChecksPassed, hm, hiu, hrn, hsl,
                hoip, hproto, htok, hct, hre]
      · cases hn : decide (10 * 1024 * 1024 < n) with
        | true =>
            exact Or.inl
              (by simp [replaceFromUrlHandler, bne, hm, hfields, hproto, htok, hct, hn])
        | false =>
            cases hre : re with
            | false =>
                exact Or.inl
                  (by simp [replaceFromUrlHandler, bne, hm, hfields, hproto, htok,
                    hct, hn, hre])
            | true =>
                simp only [decide_eq_false_iff_not, Nat.not_lt] at hn
                refine Or.inr ⟨?_, ?_, ?_⟩
                · simp [replaceFromUrlHandler, bne, hm, hfields, hproto, htok, hct,
                    hre, Nat.not_lt.mpr hn]
                · simp [replaceFromUrlHandler, bne, hm, hfields, hproto, htok, hct,
                    hre, Nat.not_lt.mpr hn]
                · simp [handlerChecksPassed, preSizeChecksPassed, hm, hiu, hrn, hsl,
                    hoip, hproto, htok, hct, hre, hn]
    constructor
    · intro hfail
      rcases key with hk | hk
      · exact hk
      · rw [hk.1] at hfail
        cases hfail
    · intro hw
      rcases key with hk | hk
      · exact absurd hk hw
      · exact ⟨hk.2.2, hk.2.1⟩
  · intro env h
    cases hg : (generateImage env.gen).success with
    | false => simp [processImage, hg]
    | true =>
        cases he : (extractImagesWithPolling env.poll).1.success with
        | false => simp [processImage, hg, he]
        | true =>
            have hu : jsTruthy (firstUrl env) = false := by
              rcases h with h | h | h
              · rw [hg] at h
                cases h
              · rw [he] at h
                cases h
              · exact h
            rcases himg : (extractImagesWithPolling env.poll).1.images.getD []
              with _ | ⟨img0, rest⟩
            · simp [processImage, hg, he, himg]
            · have hu0 : jsTruthy img0.download_url = false := by
                simp only [firstUrl, himg] at hu
                exact hu
              simp [processImage, hg, he, himg, hu0]

/-- C4 witness: no write on a rejected request, and no applier invocation
after a failed submission. -/
theorem c4_no_partial_apply_witness :
    (replaceFromUrlHandler henvBadMethod).writes = []
    ∧ (processImage sagaEnvGenFail).replaceCalls = [] :=
  ⟨(c4_no_partial_apply.1 henvBadMethod).1 (by decide),
   c4_no_partial_apply.2 sagaEnvGenFail (Or.inl (by decide))⟩

/-- C7 counterexample: the claim demands that every fetched payload above
the 10 MiB ceiling fail with a too-large error before being read. In
henvNoHeader the response body is 15 MiB but carries no content-length
header: the handler reads the whole body, succeeds with status 200 and
writes all 15 MiB to the target file. The ceiling is only enforced against
the content-length header. -/
theorem c7_size_ceiling_counterexample :
    10 * 1024 * 1024 < 15 * 1024 * 1024
    ∧ (replaceFromUrlHandler henvNoHeader).status = 200
    ∧ (replaceFromUrlHandler henvNoHeader).success = true
    ∧ (replaceFromUrlHandler henvNoHeader).bodyRead = true
    ∧ (replaceFromUrlHandler henvNoHeader).writes
        = [("uploads/s/a.png", 15 * 1024 * 1024)] := by
  decide

/-- C7 amended: when the content-length header is present and exceeds the
10 MiB ceiling the handler never reads the body and never writes the target
file, and if all earlier guards passed it answers exactly the 400 too-large
error; a payload without the header is not size-checked at all (see the
counterexample). -/
theorem c7_size_ceiling_amended (env : ReplaceHandlerEnv) (n : Nat)
    (hcl : contentLengthOf env = some n) (hn : 10 * 1024 * 1024 < n) :
    (replaceFromUrlHandler env).bodyRead = false
    ∧ (replaceFromUrlHandler env).writes = []
    ∧ (preSizeChecksPassed env = true →
        replaceFromUrlHandler env
          = { status := 400, success := false,
              error := some "Image file is too large (maximum 10MB allowed)",
              newImagePath := none, bodyRead := false, writes := [] }) := by
  rcases env with ⟨m, iu, rn, sl, oip, up, tok, fetch, re⟩
  rcases fetch with msg | ⟨ok, st, stx, ct, cl, bs⟩
  · simp only [contentLengthOf] at hcl
    cases hcl
  · simp only [contentLengthOf] at hcl
    subst hcl
    simp only [replaceFromUrlHandler, preSizeChecksPassed]
    repeat' split
    all_goals
      first
        | exact ⟨rfl, rfl, fun _ => rfl⟩
        | (refine ⟨rfl, rfl, ?_⟩
           intro hpre
           simp_all)
        | simp_all

/-- C7 witness: the amended behaviour at a concrete over-ceiling header. -/
theorem c7_size_ceiling_witness :
    (replaceFromUrlHandler henvBigHeader).bodyRead = false
    ∧ (replaceFromUrlHandler henvBigHeader).writes = []
    ∧ replaceFromUrlHandler henvBigHeader
        = { status := 400, success := false,
            error := some "Image file is too large (maximum 10MB allowed)",
            newImagePath := none, bodyRead := false, writes := [] } := by
  have h := c7_size_ceiling_amended henvBigHeader (11 * 1024 * 1024)
    (by decide) (by decide)
  exact ⟨h.1, h.2.1, h.2.2 (by decide)⟩

end MdxEditor
